import Mathlib

/-!
Verification of the firmware shell-ball packer core (pack_firmware.py and
utils/merge_file.py): the binary section model, the RO/RW preamble-flag
state machine, the section clone/splice algorithm, the EC RW extraction and
merge, the version manifest writer, and the template substitution map.

External tools (dump_fmap, vbutil_firmware, resign_firmwarefd.sh, cbfstool,
md5) are collaborators: their reported data (section layout, preamble flag
word, file digests) appears as fields of the modelled state or as function
parameters, while every decision and byte manipulation made by the Python
code itself is translated directly.
-/

namespace PackFirmware

/-- A named FMAP region: `Section = collections.namedtuple('Section', ['offset', 'size'])`. -/
structure Section where
  offset : Nat
  size : Nat
  deriving Repr, DecidableEq

/-- The distinct reasons carried by the `PackError` exceptions raised in the
translated region of pack_firmware.py, one constructor per raise site. -/
inductive PackReason where
  | invalidSection (sect : String)
  | sizeMismatch (sect : String)
  | offsetMismatch (sect : String)
  | notRoNormal
  | notRwFirmware
  | payloadTooLarge (sectionSize payloadSize : Nat)
  | mustAssignImage
  deriving Repr, DecidableEq

/-- The Python exceptions that can escape the translated functions: the
structured `PackError`, the built-in `KeyError` from a dict subscript, the
built-in `TypeError` (from a malformed percent-format), and `struct.error`. -/
inductive PyError where
  | packError (reason : PackReason)
  | keyError (key : String)
  | typeError
  | structError
  deriving Repr, DecidableEq

/-- True exactly for the structured `PackError` exception (as opposed to the
unnamed built-in exceptions). -/
def isPackError : PyError → Bool
  | PyError.packError _ => true
  | _ => false

/-- A firmware image file: its byte content, the section layout that the
`dump_fmap -p` collaborator reports for it, and its modification timestamp. -/
structure Blob where
  bytes : List Nat
  fmap : List (String × Section)
  mtime : Nat
  deriving Repr, DecidableEq

/-- Python dict lookup (sections and image_files dicts are keyed by strings). -/
def dictLookup {α : Type} : List (String × α) → String → Option α
  | [], _ => none
  | (k, v) :: rest, key => if key = k then some v else dictLookup rest key

/-- Python dict subscript `d[key]`: raises `KeyError(key)` when absent. -/
def dictGet {α : Type} (m : List (String × α)) (key : String) : Except PyError α :=
  match dictLookup m key with
  | some v => Except.ok v
  | none => Except.error (PyError.keyError key)

/-- Python dict assignment `d[key] = v`: overwrite when present, append when new. -/
def dictInsert {α : Type} (m : List (String × α)) (key : String) (v : α) :
    List (String × α) :=
  if (dictLookup m key).isSome then
    m.map (fun p => if p.1 = key then (key, v) else p)
  else m ++ [(key, v)]

/-- `source.seek(pos); source.read(size)` on a file with the given contents
(`size = none` reads to end of file). -/
def fileRead (data : List Nat) (pos : Nat) (size : Option Nat) : List Nat :=
  match size with
  | none => data.drop pos
  | some n => (data.drop pos).take n

/-- `output.seek(pos); output.write(newData)` on a file opened `r+`: bytes up
to `pos` are kept, a seek past end-of-file zero-fills the gap, the written
bytes overwrite in place, and the tail after the written range is kept. -/
def fileWrite (data : List Nat) (pos : Nat) (newData : List Nat) : List Nat :=
  data.take pos ++ List.replicate (pos - data.length) 0 ++ newData ++
    data.drop (pos + newData.length)

/-- utils/merge_file.py `merge_file`: write into `large` at `large_offset` the
bytes read from `small` at `small_offset` (`size = none` reads all of it). -/
def merge_file (large small : List Nat) (large_offset small_offset : Nat)
    (size : Option Nat) : List Nat :=
  fileWrite large large_offset (fileRead small small_offset size)

/-- `_GetFMAP`: the section layout the `dump_fmap -p` collaborator reports. -/
def GetFMAP (b : Blob) : List (String × Section) := b.fmap

/-- `_CloneFirmwareSection(dst, src, section)`: look the section up in both
FMAPs (a missing key raises `KeyError`), reject a zero-size source section,
reject size and offset mismatches, then splice the section bytes from `src`
into `dst` via `merge_file`. Returns the outcome together with the final
states of `dst` and `src`; `now` is the wall-clock time that the operating
system stamps onto `dst` when `merge_file` writes it. -/
def CloneFirmwareSection (dst src : Blob) (sect : String) (now : Nat) :
    Except PyError Unit × Blob × Blob :=
  match dictGet (GetFMAP src) sect with
  | Except.error e => (Except.error e, dst, src)
  | Except.ok src_section =>
    match dictGet (GetFMAP dst) sect with
    | Except.error e => (Except.error e, dst, src)
    | Except.ok dst_section =>
      if src_section.size = 0 then
        (Except.error (PyError.packError (PackReason.invalidSection sect)), dst, src)
      else if src_section.size ≠ dst_section.size then
        (Except.error (PyError.packError (PackReason.sizeMismatch sect)), dst, src)
      else if src_section.offset ≠ dst_section.offset then
        (Except.error (PyError.packError (PackReason.offsetMismatch sect)), dst, src)
      else
        (Except.ok (),
         { dst with
             bytes := merge_file dst.bytes src.bytes dst_section.offset
               src_section.offset (some src_section.size),
             mtime := now },
         src)

/-- `_CopyTimestamp(reference, fname)` applied to a modelled blob. -/
def CopyTimestamp (reference f : Blob) : Blob := { f with mtime := reference.mtime }

/-- `_MergeRwFirmware(ro_fname, rw_fname)`: clone `RW_SECTION_A` and
`RW_SECTION_B` from the RW image into the RO image, then copy the RW image
timestamp onto the result. `nowA`/`nowB` are the write times of the clones. -/
def MergeRwFirmware (ro rw : Blob) (nowA nowB : Nat) : Except PyError Blob :=
  match CloneFirmwareSection ro rw "RW_SECTION_A" nowA with
  | (Except.error e, _, _) => Except.error e
  | (Except.ok _, ro1, _) =>
    match CloneFirmwareSection ro1 rw "RW_SECTION_B" nowB with
    | (Except.error e, _, _) => Except.error e
    | (Except.ok _, ro2, _) => Except.ok (CopyTimestamp rw ro2)

/-- A signed firmware image as seen through the preamble-flag collaborators:
`preambleFlags` is the integer that `_GetPreambleFlags` (vbutil_firmware)
reports for the file, `mtime` its modification timestamp. -/
structure Image where
  preambleFlags : Nat
  mtime : Nat
  deriving Repr, DecidableEq

/-- `_GetPreambleFlags(fname)`: the flag word reported by the verifier. -/
def GetPreambleFlags (img : Image) : Nat := img.preambleFlags

/-- `_SetPreambleFlags(infile, outfile, preamble_flags)`: the external
re-signing collaborator writes a fresh output image carrying the requested
flag word; the new file gets a fresh modification timestamp `outMtime`. -/
def SetPreambleFlags (_infile : Image) (outMtime : Nat) (preamble_flags : Nat) : Image :=
  { preambleFlags := preamble_flags, mtime := outMtime }

/-- `_CopyTimestamp` applied to a modelled image. -/
def CopyTimestampImage (reference f : Image) : Image := { f with mtime := reference.mtime }

/-- `_CreateRwFirmware(ro_fname, rw_fname)`: require preamble-flag bit 0 set
(else `PackError` NOT RO_NORMAL), re-sign with bit 0 toggled off, then copy
the RO image timestamp onto the result. -/
def CreateRwFirmware (ro : Image) (resignMtime : Nat) : Except PyError Image :=
  let preamble_flags := GetPreambleFlags ro
  if preamble_flags &&& 1 = 0 then
    Except.error (PyError.packError PackReason.notRoNormal)
  else
    let rw := SetPreambleFlags ro resignMtime (preamble_flags ^^^ 1)
    Except.ok (CopyTimestampImage ro rw)

/-- `_CheckRwFirmware(fname)`: raise `PackError` NOT RW-firmware when
preamble-flag bit 0 is set. -/
def CheckRwFirmware (img : Image) : Except PyError Unit :=
  if GetPreambleFlags img &&& 1 ≠ 0 then
    Except.error (PyError.packError PackReason.notRwFirmware)
  else Except.ok ()

/-- Little-endian 32-bit read at byte index `i`, as done by
`struct.unpack('<III', ...)` on the section data. -/
def le32At (data : List Nat) (i : Nat) : Nat :=
  data.getD i 0 + 256 * data.getD (i + 1) 0 + 65536 * data.getD (i + 2) 0 +
    16777216 * data.getD (i + 3) 0

/-- `_ExtractEcRwUsingFMAP(fname, ecrw_fname)` given the bytes that
`dump_fmap -x` extracts for the `EC_MAIN_A` section: unpack the first 12
bytes as `(count, offset, size)` (fewer than 12 bytes raises `struct.error`);
when the header check fails, the raise statement evaluates
`'... (%d, %d) ...' % count` — a two-place format fed a lone integer — so a
built-in `TypeError` escapes instead of the intended `PackError`; otherwise
copy `size` bytes at `offset` into the freshly created (empty) ecrw file. -/
def ExtractEcRwUsingFMAP (ec_main_a : List Nat) : Except PyError (List Nat) :=
  if ec_main_a.length < 12 then Except.error PyError.structError
  else
    let count := le32At ec_main_a 0
    let offset := le32At ec_main_a 4
    let size := le32At ec_main_a 8
    if count ≠ 1 ∨ offset ≠ 12 then Except.error PyError.typeError
    else Except.ok (merge_file [] ec_main_a 0 offset (some size))

/-- `_MergeRwEcFirmware(ec_fname, rw_fname, cbfs_name)` after the RW EC
payload `ecrw` has been extracted (by `_ExtractEcRw`, a dispatch between the
FMAP strategy above and the cbfstool collaborator): look up `EC_RW` in the
destination FMAP, fail when the payload is larger than the section, else
write the whole payload at the section offset and copy the source image
timestamp (`rwMtime`) onto the destination. Returns the outcome with the
final destination state. -/
def MergeRwEcFirmware (ec : Blob) (ecrw : List Nat) (rwMtime : Nat) :
    Except PyError Unit × Blob :=
  match dictGet (GetFMAP ec) "EC_RW" with
  | Except.error e => (Except.error e, ec)
  | Except.ok sect =>
    if sect.size < ecrw.length then
      (Except.error (PyError.packError (PackReason.payloadTooLarge sect.size ecrw.length)),
       ec)
    else
      (Except.ok (),
       { ec with bytes := merge_file ec.bytes ecrw sect.offset 0 none, mtime := rwMtime })

/-- `ImageFile = collections.namedtuple('ImageFile', ['filename', 'version'])`. -/
structure ImageFile where
  filename : Option String
  version : String
  deriving Repr, DecidableEq

/-- The `IGNORE` sentinel version string (work-around for x86-mario). -/
def IGNORE : String := "IGNORE"

/-- `' ' * n`. -/
def spaces (n : Nat) : String := String.mk (List.replicate n ' ')

/-- `_AddVersionInfo(name, fname, version)`: the lines printed into the
version stream. `digest` models the md5-of-file-contents collaborator and
`shorten` the base-directory path normalization; an image line is printed
when a filename is present, and a version line when the version is neither
empty nor the `IGNORE` sentinel. -/
def AddVersionInfo (digest shorten : String → String) (name : String)
    (fname : Option String) (version : String) : List String :=
  (match fname with
   | some f =>
       [name ++ " image:" ++ spaces (max 3 (7 - name.length)) ++ digest f ++ " *" ++
         shorten f]
   | none => []) ++
  (if version ≠ "" ∧ version ≠ IGNORE then
    [name ++ " version:" ++ spaces (max 1 (5 - name.length)) ++ version]
  else [])

/-- `_WriteVersions(image_files)`: a blank line, then the version info of
every image file, visited in sorted key order. -/
def WriteVersions (digest shorten : String → String)
    (image_files : List (String × ImageFile)) : List String :=
  "" :: (((image_files.map Prod.fst).insertionSort (fun a b => a ≤ b)).map
      (fun n =>
        match dictLookup image_files n with
        | some f => AddVersionInfo digest shorten n f.filename f.version
        | none => [])).flatten

/-- The `image_files` dict obtained from a sequence of `image_files[name] = v`
assignments, starting from the empty dict. -/
def addAll (adds : List (String × ImageFile)) : List (String × ImageFile) :=
  adds.foldl (fun m p => dictInsert m p.1 p.2) []

/-- The rendered version text produced for a sequence of record additions. -/
def renderVersions (digest shorten : String → String)
    (adds : List (String × ImageFile)) : List String :=
  WriteVersions digest shorten (addAll adds)

/-- The replacement dict built by `_GetReplaceDict` (one field per
`REPLACE_...` key). -/
structure ReplaceDict where
  ro_fwid : String
  fwid : String
  ecid : String
  pdid : String
  platform : String
  stable_fwid : Option String
  stable_ecid : Option String
  stable_pdid : Option String
  deriving Repr, DecidableEq

/-- `ImageFile(None, '')`, the default used by `image_files.get`. -/
def emptyImageFile : ImageFile := { filename := none, version := "" }

/-- Python `version or IGNORE` for a string value. -/
def orIgnore (v : String) : String := if v = "" then IGNORE else v

/-- Python `s.split('.')[0]`: the characters before the first separator. -/
def pySplitHead (s : String) (sep : Char) : String :=
  String.mk (s.data.takeWhile (fun c => c != sep))

/-- `_GetReplaceDict(image_files, ...)`: the effective RW firmware id falls
back to the BIOS version when the `BIOS (RW)` record is absent or carries an
empty version; the EC/PD ids fall back to `IGNORE` when absent or empty; the
platform is the first dot-separated field of the BIOS version. A missing
`BIOS` record raises the built-in `KeyError('BIOS')`. -/
def GetReplaceDict (image_files : List (String × ImageFile))
    (stable_main_version stable_ec_version stable_pd_version : Option String) :
    Except PyError ReplaceDict :=
  match dictLookup image_files "BIOS" with
  | none => Except.error (PyError.keyError "BIOS")
  | some bios =>
    let rw0 := ((dictLookup image_files "BIOS (RW)").getD emptyImageFile).version
    let bios_rw_version := if rw0 = "" then bios.version else rw0
    Except.ok
      { ro_fwid := bios.version,
        fwid := bios_rw_version,
        ecid := orIgnore ((dictLookup image_files "EC").getD emptyImageFile).version,
        pdid := orIgnore ((dictLookup image_files "PD").getD emptyImageFile).version,
        platform := pySplitHead bios.version '.',
        stable_fwid := stable_main_version,
        stable_ecid := stable_ec_version,
        stable_pdid := stable_pd_version }

/-- The collaborator-backed steps invoked by `_CopyFirmwareFiles`, abstracted
as an environment: `extractFrid path sect` is `_ExtractFrid` (empty string
when the section cannot be read), `checkRw` is `_CheckRwFirmware`, `createRw`
is `_CreateRwFirmware`, `mergeRw` is `_MergeRwFirmware`, and `mergeRwEc` is
`_MergeRwEcFirmware`; each byte-level operation is verified separately on the
blob model above. -/
structure FwEnv where
  extractFrid : String → String → String
  checkRw : String → Except PyError Unit
  createRw : Option String → String → Except PyError Unit
  mergeRw : String → String → Except PyError Unit
  mergeRwEc : String → String → String → Except PyError Unit

/-- The BIOS paragraph of `_CopyFirmwareFiles`: record the `BIOS` entry
(with the `IGNORE` fallback for an unreadable id) and keep the caller's merge
flag when a BIOS image is given; with no BIOS image, disable merging. -/
def biosStep (env : FwEnv) (bios_image : Option String) (merge_bios_rw_image : Bool) :
    List (String × ImageFile) × Bool :=
  match bios_image with
  | some b =>
      let v0 := env.extractFrid b "RO_FRID"
      let bios_version := if v0 = "" then IGNORE else v0
      (dictInsert [] "BIOS" ({ filename := some b, version := bios_version } : ImageFile),
       merge_bios_rw_image)
  | none => (([] : List (String × ImageFile)), false)

/-- The create-RW paragraph of `_CopyFirmwareFiles`: when no RW image was
supplied and creation was requested, run `_CreateRwFirmware` on the BIOS
image and continue with the created file and merging disabled; otherwise
keep the supplied RW image and the current merge flag. -/
def createStep (env : FwEnv) (bios_image bios_rw_image : Option String)
    (create_bios_rw_image : Bool) (image_main_rw : String) (merge0 : Bool) :
    Except PyError (Option String × Bool) :=
  if bios_rw_image.isNone && create_bios_rw_image then
    match env.createRw bios_image image_main_rw with
    | Except.error e => Except.error e
    | Except.ok _ => Except.ok (some image_main_rw, false)
  else Except.ok (bios_rw_image, merge0)

/-- The RW-BIOS paragraph of `_CopyFirmwareFiles`: check the RW image really
is RW firmware, extract its id, merge its RW sections into the main image
when merging is enabled, and record the `BIOS (RW)` entry; with no RW image,
disable merging. -/
def rwStep (env : FwEnv) (bios_rw : Option String) (merge1 : Bool) (image_main : String)
    (image_files0 : List (String × ImageFile)) :
    Except PyError (List (String × ImageFile) × Bool) :=
  match bios_rw with
  | some rwf =>
      match env.checkRw rwf with
      | Except.error e => Except.error e
      | Except.ok _ =>
        let bios_rw_version := env.extractFrid rwf "RO_FRID"
        match (if merge1 then env.mergeRw image_main rwf else Except.ok ()) with
        | Except.error e => Except.error e
        | Except.ok _ =>
            Except.ok
              (dictInsert image_files0 "BIOS (RW)"
                ({ filename := some rwf, version := bios_rw_version } : ImageFile), merge1)
  | none => Except.ok (image_files0, false)

/-- The EC paragraph of `_CopyFirmwareFiles`: record the `EC` entry (with
the caller-supplied default version as fallback), and when merging is
enabled splice the EC RW payload out of the main image and record the
read-back `EC (RW)` entry. -/
def ecStep (env : FwEnv) (ec_image : Option String) (default_ec_version : String)
    (merge2 : Bool) (image_ec image_main : String)
    (image_files1 : List (String × ImageFile)) :
    Except PyError (List (String × ImageFile)) :=
  match ec_image with
  | some e =>
      let v0 := env.extractFrid e "RO_FRID"
      let ec_version :=
        if v0 = "" ∧ default_ec_version ≠ "" then default_ec_version else v0
      let files := dictInsert image_files1 "EC"
        ({ filename := some e, version := ec_version } : ImageFile)
      if merge2 then
        match env.mergeRwEc image_ec image_main "ecrw" with
        | Except.error er => Except.error er
        | Except.ok _ =>
            Except.ok
              (dictInsert files "EC (RW)"
                ({ filename := none, version := env.extractFrid image_ec "RW_FWID" } : ImageFile))
      else Except.ok files
  | none => Except.ok image_files1

/-- The PD paragraph of `_CopyFirmwareFiles`: same shape as the EC paragraph
but with no default-version fallback and the `pdrw` CBFS entry name. -/
def pdStep (env : FwEnv) (pd_image : Option String) (merge2 : Bool)
    (image_pd image_main : String) (image_files2 : List (String × ImageFile)) :
    Except PyError (List (String × ImageFile)) :=
  match pd_image with
  | some p =>
      let pd_version := env.extractFrid p "RO_FRID"
      let files := dictInsert image_files2 "PD"
        ({ filename := some p, version := pd_version } : ImageFile)
      if merge2 then
        match env.mergeRwEc image_pd image_main "pdrw" with
        | Except.error er => Except.error er
        | Except.ok _ =>
            Except.ok
              (dictInsert files "PD (RW)"
                ({ filename := none, version := env.extractFrid image_pd "RW_FWID" } : ImageFile))
      else Except.ok files
  | none => Except.ok image_files2

/-- `_CopyFirmwareFiles`: build the `image_files` dict for one model as the
sequence of the paragraphs above, following the source control flow (the
`shutil.copy2` working-area copies carry no model-visible state). Keys
inserted: `BIOS`, `BIOS (RW)`, `EC`, `EC (RW)`, `PD`, `PD (RW)`. -/
def CopyFirmwareFiles (env : FwEnv) (bios_image bios_rw_image ec_image pd_image : Option String)
    (default_ec_version : String) (create_bios_rw_image merge_bios_rw_image : Bool)
    (image_main image_main_rw image_ec image_pd : String) :
    Except PyError (List (String × ImageFile)) :=
  match biosStep env bios_image merge_bios_rw_image with
  | (image_files0, merge0) =>
    match createStep env bios_image bios_rw_image create_bios_rw_image image_main_rw merge0 with
    | Except.error e => Except.error e
    | Except.ok (bios_rw, merge1) =>
      match rwStep env bios_rw merge1 image_main image_files0 with
      | Except.error e => Except.error e
      | Except.ok (image_files1, merge2) =>
        match ecStep env ec_image default_ec_version merge2 image_ec image_main image_files1 with
        | Except.error e => Except.error e
        | Except.ok image_files2 =>
          pdStep env pd_image merge2 image_pd image_main image_files2

/-- `_ProcessModel` (image handling): fail unless at least one of the BIOS,
EC, PD images is present, then build the `image_files` dict. The main-script
and bundled-tool existence checks, the version-stream write and the base-file
copies are filesystem collaborators outside this model. -/
def ProcessModel (env : FwEnv) (bios_image bios_rw_image ec_image pd_image : Option String)
    (default_ec_version : String) (create_bios_rw_image merge_bios_rw_image : Bool)
    (image_main image_main_rw image_ec image_pd : String) :
    Except PyError (List (String × ImageFile)) :=
  if bios_image = none ∧ ec_image = none ∧ pd_image = none then
    Except.error (PyError.packError PackReason.mustAssignImage)
  else
    CopyFirmwareFiles env bios_image bios_rw_image ec_image pd_image default_ec_version
      create_bios_rw_image merge_bios_rw_image image_main image_main_rw image_ec image_pd

instance instDecEqExcept {ε α : Type} [DecidableEq ε] [DecidableEq α] :
    DecidableEq (Except ε α) := fun a b =>
  match a, b with
  | Except.error e, Except.error f =>
      if h : e = f then isTrue (by rw [h])
      else isFalse (fun hh => h (by cases hh; rfl))
  | Except.ok x, Except.ok y =>
      if h : x = y then isTrue (by rw [h])
      else isFalse (fun hh => h (by cases hh; rfl))
  | Except.error _, Except.ok _ => isFalse (fun hh => Except.noConfusion hh)
  | Except.ok _, Except.error _ => isFalse (fun hh => Except.noConfusion hh)

/-! ### Frame lemmas for the in-place file write -/

theorem fileWrite_eq_of_le (l d : List Nat) (pos : Nat) (h : pos ≤ l.length) :
    fileWrite l pos d = l.take pos ++ d ++ l.drop (pos + d.length) := by
  unfold fileWrite
  rw [Nat.sub_eq_zero_of_le h]
  simp

theorem fileWrite_take (l d : List Nat) (pos : Nat) (h : pos ≤ l.length) :
    (fileWrite l pos d).take pos = l.take pos := by
  rw [fileWrite_eq_of_le l d pos h, List.append_assoc]
  exact List.take_left' (by rw [List.length_take]; exact Nat.min_eq_left h)

theorem fileWrite_middle (l d : List Nat) (pos : Nat) (h : pos ≤ l.length) :
    ((fileWrite l pos d).drop pos).take d.length = d := by
  rw [fileWrite_eq_of_le l d pos h, List.append_assoc,
    List.drop_left' (by rw [List.length_take]; exact Nat.min_eq_left h),
    List.take_left' rfl]

theorem fileWrite_drop (l d : List Nat) (pos : Nat) (h : pos ≤ l.length) :
    (fileWrite l pos d).drop (pos + d.length) = l.drop (pos + d.length) := by
  rw [fileWrite_eq_of_le l d pos h]
  refine List.drop_left' ?_
  rw [List.length_append, List.length_take]
  rw [Nat.min_eq_left h]

theorem fileWrite_length (l d : List Nat) (pos : Nat) (h : pos + d.length ≤ l.length) :
    (fileWrite l pos d).length = l.length := by
  rw [fileWrite_eq_of_le l d pos (le_trans (Nat.le_add_right _ _) h)]
  simp only [List.length_append, List.length_take, List.length_drop]
  omega

/-! ### C1, C2, C6, C9: the section clone -/

/-- C1 (amended): when both blobs contain the named section and the source
section size is nonzero, `clone_section` fails with the size-mismatch error
when the sizes differ and with the offset-mismatch error when the sizes agree
but the offsets differ, and both blobs come out byte-for-byte unchanged.
(When the source section size is zero, the invalid-section error fires
before either mismatch check.) -/
theorem clone_section_mismatch_errors (dst src : Blob) (sect : String) (now : Nat)
    (ss ds : Section) (hs : dictLookup src.fmap sect = some ss)
    (hd : dictLookup dst.fmap sect = some ds) (hnz : ss.size ≠ 0) :
    (ss.size ≠ ds.size →
      CloneFirmwareSection dst src sect now =
        (Except.error (PyError.packError (PackReason.sizeMismatch sect)), dst, src)) ∧
    (ss.size = ds.size → ss.offset ≠ ds.offset →
      CloneFirmwareSection dst src sect now =
        (Except.error (PyError.packError (PackReason.offsetMismatch sect)), dst, src)) := by
  constructor
  · intro hsz
    simp [CloneFirmwareSection, dictGet, GetFMAP, hs, hd, hnz, hsz]
  · intro hsz hoff
    have hnz2 : ds.size ≠ 0 := hsz ▸ hnz
    simp [CloneFirmwareSection, dictGet, GetFMAP, hs, hd, hnz, hnz2, hsz, hoff]

theorem clone_section_mismatch_errors_witness :
    CloneFirmwareSection (Blob.mk [1, 2, 3, 4] [("RW_SECTION_A", Section.mk 0 4)] 0)
        (Blob.mk [9, 9] [("RW_SECTION_A", Section.mk 0 2)] 0) "RW_SECTION_A" 5 =
      (Except.error (PyError.packError (PackReason.sizeMismatch "RW_SECTION_A")),
       Blob.mk [1, 2, 3, 4] [("RW_SECTION_A", Section.mk 0 4)] 0,
       Blob.mk [9, 9] [("RW_SECTION_A", Section.mk 0 2)] 0) :=
  (clone_section_mismatch_errors
      (Blob.mk [1, 2, 3, 4] [("RW_SECTION_A", Section.mk 0 4)] 0)
      (Blob.mk [9, 9] [("RW_SECTION_A", Section.mk 0 2)] 0) "RW_SECTION_A" 5
      (Section.mk 0 2) (Section.mk 0 4) (by decide) (by decide) (by decide)).1
    (by decide)

/-- C1 counterexample: a pair of blobs whose named section sizes differ (0
versus 4) on which `clone_section` raises the invalid-section error, not the
size-mismatch error the claim requires, because the zero-size check on the
source section fires first. -/
theorem clone_section_mismatch_cex :
    Section.size (Section.mk 0 0) ≠ Section.size (Section.mk 0 4) ∧
    CloneFirmwareSection (Blob.mk [1, 2, 3, 4] [("S", Section.mk 0 4)] 0)
        (Blob.mk [] [("S", Section.mk 0 0)] 0) "S" 0 =
      (Except.error (PyError.packError (PackReason.invalidSection "S")),
       Blob.mk [1, 2, 3, 4] [("S", Section.mk 0 4)] 0,
       Blob.mk [] [("S", Section.mk 0 0)] 0) ∧
    PackReason.invalidSection "S" ≠ PackReason.sizeMismatch "S" := by
  decide

/-- C2: when the named section has the same nonzero size and the same offset
in both blobs (and lies inside both), `clone_section` succeeds, copies
exactly `size` source bytes at `offset` into the destination at the same
offset, and leaves every destination byte outside `[offset, offset + size)`
unchanged. -/
theorem clone_section_splice_exact (dst src : Blob) (sect : String) (now : Nat)
    (s : Section) (hs : dictLookup src.fmap sect = some s)
    (hd : dictLookup dst.fmap sect = some s) (hnz : s.size ≠ 0)
    (hsrc : s.offset + s.size ≤ src.bytes.length)
    (hdst : s.offset + s.size ≤ dst.bytes.length) :
    ∃ dst' : Blob,
      CloneFirmwareSection dst src sect now = (Except.ok (), dst', src) ∧
      dst'.bytes.length = dst.bytes.length ∧
      dst'.bytes.take s.offset = dst.bytes.take s.offset ∧
      dst'.bytes.drop (s.offset + s.size) = dst.bytes.drop (s.offset + s.size) ∧
      (dst'.bytes.drop s.offset).take s.size = (src.bytes.drop s.offset).take s.size := by
  have hoff : s.offset ≤ dst.bytes.length := le_trans (Nat.le_add_right _ _) hdst
  have hdata : (fileRead src.bytes s.offset (some s.size)).length = s.size := by
    simp only [fileRead, List.length_take, List.length_drop]
    omega
  refine ⟨{ dst with
      bytes := merge_file dst.bytes src.bytes s.offset s.offset (some s.size),
      mtime := now }, ?_, ?_, ?_, ?_, ?_⟩
  · simp [CloneFirmwareSection, dictGet, GetFMAP, hs, hd, hnz]
  · show (fileWrite dst.bytes s.offset (fileRead src.bytes s.offset (some s.size))).length
        = dst.bytes.length
    exact fileWrite_length _ _ _ (by rw [hdata]; exact hdst)
  · exact fileWrite_take _ _ _ hoff
  · show (fileWrite dst.bytes s.offset
        (fileRead src.bytes s.offset (some s.size))).drop (s.offset + s.size)
        = dst.bytes.drop (s.offset + s.size)
    have := fileWrite_drop dst.bytes (fileRead src.bytes s.offset (some s.size))
      s.offset hoff
    rwa [hdata] at this
  · show ((fileWrite dst.bytes s.offset
        (fileRead src.bytes s.offset (some s.size))).drop s.offset).take s.size
        = (src.bytes.drop s.offset).take s.size
    have := fileWrite_middle dst.bytes (fileRead src.bytes s.offset (some s.size))
      s.offset hoff
    rw [hdata] at this
    rw [this]
    rfl

theorem clone_section_splice_exact_witness :
    ∃ dst' : Blob,
      CloneFirmwareSection (Blob.mk [0, 0, 0, 0, 0] [("RW_SECTION_A", Section.mk 1 2)] 3)
          (Blob.mk [9, 8, 7, 6, 5] [("RW_SECTION_A", Section.mk 1 2)] 11)
          "RW_SECTION_A" 7 =
        (Except.ok (), dst', Blob.mk [9, 8, 7, 6, 5] [("RW_SECTION_A", Section.mk 1 2)] 11) ∧
      dst'.bytes.length = (Blob.mk [0, 0, 0, 0, 0] [("RW_SECTION_A", Section.mk 1 2)] 3).bytes.length ∧
      dst'.bytes.take (Section.mk 1 2).offset =
        (Blob.mk [0, 0, 0, 0, 0] [("RW_SECTION_A", Section.mk 1 2)] 3).bytes.take (Section.mk 1 2).offset ∧
      dst'.bytes.drop ((Section.mk 1 2).offset + (Section.mk 1 2).size) =
        (Blob.mk [0, 0, 0, 0, 0] [("RW_SECTION_A", Section.mk 1 2)] 3).bytes.drop
          ((Section.mk 1 2).offset + (Section.mk 1 2).size) ∧
      (dst'.bytes.drop (Section.mk 1 2).offset).take (Section.mk 1 2).size =
        ((Blob.mk [9, 8, 7, 6, 5] [("RW_SECTION_A", Section.mk 1 2)] 11).bytes.drop
          (Section.mk 1 2).offset).take (Section.mk 1 2).size :=
  clone_section_splice_exact
    (Blob.mk [0, 0, 0, 0, 0] [("RW_SECTION_A", Section.mk 1 2)] 3)
    (Blob.mk [9, 8, 7, 6, 5] [("RW_SECTION_A", Section.mk 1 2)] 11)
    "RW_SECTION_A" 7 (Section.mk 1 2) (by decide) (by decide) (by decide)
    (by decide) (by decide)

/-- C6 (amended): when the named section is missing from the source or the
destination FMAP, `clone_section` fails with the unstructured built-in
`KeyError` carrying the section name — not a structured `PackError` — and
both blobs come out unchanged. -/
theorem clone_section_missing_keyerror (dst src : Blob) (sect : String) (now : Nat)
    (h : dictLookup src.fmap sect = none ∨ dictLookup dst.fmap sect = none) :
    CloneFirmwareSection dst src sect now =
      (Except.error (PyError.keyError sect), dst, src) := by
  rcases h with h | h
  · simp [CloneFirmwareSection, dictGet, GetFMAP, h]
  · cases hs : dictLookup src.fmap sect with
    | none => simp [CloneFirmwareSection, dictGet, GetFMAP, hs]
    | some ss => simp [CloneFirmwareSection, dictGet, GetFMAP, hs, h]

theorem clone_section_missing_keyerror_witness :
    CloneFirmwareSection (Blob.mk [1] [] 0) (Blob.mk [2] [] 0) "RW_SECTION_A" 0 =
      (Except.error (PyError.keyError "RW_SECTION_A"), Blob.mk [1] [] 0, Blob.mk [2] [] 0) :=
  clone_section_missing_keyerror (Blob.mk [1] [] 0) (Blob.mk [2] [] 0)
    "RW_SECTION_A" 0 (Or.inl (by decide))

/-- C6 counterexample: looking up a name absent from the section map raises
the built-in `KeyError`, which is not the structured `PackError` the claim
requires. -/
theorem section_lookup_not_packerror_cex :
    dictGet ([] : List (String × Section)) "FOO" = Except.error (PyError.keyError "FOO") ∧
    isPackError (PyError.keyError "FOO") = false := by
  decide

/-- C9 counterexample: a successful `clone_section` leaves the destination
with the fresh write time, not with the source timestamp: here the source
timestamp is 5 but the destination ends up with timestamp 7. -/
theorem clone_section_timestamp_cex :
    (CloneFirmwareSection (Blob.mk [0, 0] [("A", Section.mk 0 2)] 0)
        (Blob.mk [5, 6] [("A", Section.mk 0 2)] 5) "A" 7).1 = Except.ok () ∧
    (CloneFirmwareSection (Blob.mk [0, 0] [("A", Section.mk 0 2)] 0)
        (Blob.mk [5, 6] [("A", Section.mk 0 2)] 5) "A" 7).2.1.mtime = 7 ∧
    Blob.mtime (Blob.mk [5, 6] [("A", Section.mk 0 2)] 5) = 5 ∧ (7 : Nat) ≠ 5 := by
  decide

/-- C9 (amended): the timestamp copy lives in the enclosing RW merge, not in
the single-section clone: whenever `_MergeRwFirmware` succeeds, the resulting
destination carries the source blob's modification timestamp. -/
theorem merge_rw_copies_timestamp (ro rw : Blob) (nowA nowB : Nat) (out : Blob)
    (h : MergeRwFirmware ro rw nowA nowB = Except.ok out) : out.mtime = rw.mtime := by
  unfold MergeRwFirmware at h
  split at h
  · exact absurd h (by simp)
  · split at h
    · exact absurd h (by simp)
    · cases h
      simp [CopyTimestamp]

theorem merge_rw_copies_timestamp_witness :
    Blob.mtime (Blob.mk [1, 0, 3, 0]
      [("RW_SECTION_A", Section.mk 0 1), ("RW_SECTION_B", Section.mk 2 1)] 99) =
    Blob.mtime (Blob.mk [1, 2, 3, 4]
      [("RW_SECTION_A", Section.mk 0 1), ("RW_SECTION_B", Section.mk 2 1)] 99) :=
  merge_rw_copies_timestamp
    (Blob.mk [0, 0, 0, 0]
      [("RW_SECTION_A", Section.mk 0 1), ("RW_SECTION_B", Section.mk 2 1)] 0)
    (Blob.mk [1, 2, 3, 4]
      [("RW_SECTION_A", Section.mk 0 1), ("RW_SECTION_B", Section.mk 2 1)] 99)
    5 6
    (Blob.mk [1, 0, 3, 0]
      [("RW_SECTION_A", Section.mk 0 1), ("RW_SECTION_B", Section.mk 2 1)] 99)
    (by decide)

/-! ### C3: the RO/RW preamble-flag state machine -/

/-- C3: on a blob whose preamble-flag bit 0 is 1 (RO_NORMAL),
`create_rw_from_ro` succeeds with a blob whose bit 0 is 0, on which
`assert_is_rw` succeeds, and whose modification timestamp equals the RO
blob's; on a blob whose bit 0 is 0 it fails with the NOT-RO_NORMAL
`PackError` and produces no output blob. -/
theorem create_rw_from_ro_flags (ro : Image) (resignMtime : Nat) :
    (ro.preambleFlags &&& 1 = 1 →
      CreateRwFirmware ro resignMtime =
        Except.ok (Image.mk (ro.preambleFlags ^^^ 1) ro.mtime) ∧
      (ro.preambleFlags ^^^ 1) &&& 1 = 0 ∧
      CheckRwFirmware (Image.mk (ro.preambleFlags ^^^ 1) ro.mtime) = Except.ok () ∧
      (Image.mk (ro.preambleFlags ^^^ 1) ro.mtime).mtime = ro.mtime) ∧
    (ro.preambleFlags &&& 1 = 0 →
      CreateRwFirmware ro resignMtime =
        Except.error (PyError.packError PackReason.notRoNormal)) := by
  have hbit : (ro.preambleFlags ^^^ 1) &&& 1 = (ro.preambleFlags &&& 1) ^^^ 1 := by
    rw [Nat.and_xor_distrib_right]
    simp
  constructor
  · intro h1
    have hb0 : (ro.preambleFlags ^^^ 1) &&& 1 = 0 := by rw [hbit, h1]; decide
    refine ⟨?_, hb0, ?_, rfl⟩
    · simp [CreateRwFirmware, GetPreambleFlags, SetPreambleFlags, CopyTimestampImage, h1]
    · simp [CheckRwFirmware, GetPreambleFlags, hb0]
  · intro h0
    simp [CreateRwFirmware, GetPreambleFlags, h0]

theorem create_rw_from_ro_flags_witness :
    CreateRwFirmware (Image.mk 3 42) 9 = Except.ok (Image.mk 2 42) ∧
    (2 : Nat) &&& 1 = 0 ∧
    CheckRwFirmware (Image.mk 2 42) = Except.ok () ∧
    (Image.mk 2 42).mtime = 42 :=
  (create_rw_from_ro_flags (Image.mk 3 42) 9).1 (by decide)

/-! ### C4: the FMAP-based EC RW extraction -/

/-- C4: on an `EC_MAIN_A` header `(count=1, offset=12, size=2)` the extracted
payload is exactly the two section bytes at offsets 12 and 13; but on a
header whose check fails (here `count=2, offset=12`), the code raises the
built-in `TypeError` — the raise statement feeds a lone integer to a
two-place percent-format — instead of the structured 'Unexpected EC_MAIN_A'
`PackError` the claim names. -/
theorem extract_ec_rw_header_behavior :
    ExtractEcRwUsingFMAP
        [1, 0, 0, 0, 12, 0, 0, 0, 2, 0, 0, 0, 170, 187] = Except.ok [170, 187] ∧
    ExtractEcRwUsingFMAP
        [2, 0, 0, 0, 12, 0, 0, 0, 0, 0, 0, 0] = Except.error PyError.typeError ∧
    isPackError PyError.typeError = false := by
  decide

/-! ### C5: the EC RW payload merge -/

/-- C5: merging an extracted payload into the destination `EC_RW` section
fails with the payload-too-large `PackError` exactly when the payload is
longer than the section (leaving the destination unchanged), and otherwise
writes the payload at the section offset, leaving every destination byte
before the offset and from `offset + payload.length` on — including the tail
of the section — unchanged (no zero-padding). -/
theorem merge_rw_ec_payload_bound (ec : Blob) (ecrw : List Nat) (rwMtime : Nat)
    (s : Section) (hs : dictLookup ec.fmap "EC_RW" = some s)
    (hinv : s.offset + s.size ≤ ec.bytes.length) :
    (s.size < ecrw.length →
      MergeRwEcFirmware ec ecrw rwMtime =
        (Except.error (PyError.packError (PackReason.payloadTooLarge s.size ecrw.length)),
         ec)) ∧
    ((MergeRwEcFirmware ec ecrw rwMtime).1 =
        Except.error (PyError.packError (PackReason.payloadTooLarge s.size ecrw.length)) ↔
      s.size < ecrw.length) ∧
    (ecrw.length ≤ s.size →
      ∃ ec' : Blob,
        MergeRwEcFirmware ec ecrw rwMtime = (Except.ok (), ec') ∧
        ec'.bytes.length = ec.bytes.length ∧
        ec'.bytes.take s.offset = ec.bytes.take s.offset ∧
        ec'.bytes.drop (s.offset + ecrw.length) = ec.bytes.drop (s.offset + ecrw.length) ∧
        (ec'.bytes.drop s.offset).take ecrw.length = ecrw) := by
  have hoff : s.offset ≤ ec.bytes.length := le_trans (Nat.le_add_right _ _) hinv
  have hfail : s.size < ecrw.length →
      MergeRwEcFirmware ec ecrw rwMtime =
        (Except.error (PyError.packError (PackReason.payloadTooLarge s.size ecrw.length)),
         ec) := by
    intro hlt
    simp [MergeRwEcFirmware, dictGet, GetFMAP, hs, hlt]
  refine ⟨hfail, ?_, ?_⟩
  · constructor
    · intro herr
      by_contra hnot
      have hle : ecrw.length ≤ s.size := Nat.le_of_not_lt hnot
      have : MergeRwEcFirmware ec ecrw rwMtime =
          (Except.ok (),
           { ec with bytes := merge_file ec.bytes ecrw s.offset 0 none,
                     mtime := rwMtime }) := by
        simp [MergeRwEcFirmware, dictGet, GetFMAP, hs, Nat.not_lt.mpr hle]
      rw [this] at herr
      exact absurd herr (by simp)
    · intro hlt
      rw [hfail hlt]
  · intro hle
    have hdata : (fileRead ecrw 0 none).length = ecrw.length := by
      simp [fileRead]
    have hfit : s.offset + ecrw.length ≤ ec.bytes.length := by omega
    refine ⟨{ ec with bytes := merge_file ec.bytes ecrw s.offset 0 none,
                      mtime := rwMtime }, ?_, ?_, ?_, ?_, ?_⟩
    · simp [MergeRwEcFirmware, dictGet, GetFMAP, hs, Nat.not_lt.mpr hle]
    · show (fileWrite ec.bytes s.offset (fileRead ecrw 0 none)).length = ec.bytes.length
      exact fileWrite_length _ _ _ (by rw [hdata]; exact hfit)
    · exact fileWrite_take _ _ _ hoff
    · show (fileWrite ec.bytes s.offset (fileRead ecrw 0 none)).drop
          (s.offset + ecrw.length) = ec.bytes.drop (s.offset + ecrw.length)
      have := fileWrite_drop ec.bytes (fileRead ecrw 0 none) s.offset hoff
      rwa [hdata] at this
    · show ((fileWrite ec.bytes s.offset (fileRead ecrw 0 none)).drop s.offset).take
          ecrw.length = ecrw
      have := fileWrite_middle ec.bytes (fileRead ecrw 0 none) s.offset hoff
      rw [hdata] at this
      rw [this]
      simp [fileRead]

theorem merge_rw_ec_payload_bound_witness :
    (Section.size (Section.mk 1 3) < List.length [7, 7, 7, 7] →
      MergeRwEcFirmware (Blob.mk [0, 0, 0, 0, 0, 0] [("EC_RW", Section.mk 1 3)] 0)
          [7, 7, 7, 7] 9 =
        (Except.error (PyError.packError (PackReason.payloadTooLarge 3 4)),
         Blob.mk [0, 0, 0, 0, 0, 0] [("EC_RW", Section.mk 1 3)] 0)) ∧
    ((MergeRwEcFirmware (Blob.mk [0, 0, 0, 0, 0, 0] [("EC_RW", Section.mk 1 3)] 0)
          [7, 7, 7, 7] 9).1 =
        Except.error (PyError.packError (PackReason.payloadTooLarge 3 4)) ↔
      Section.size (Section.mk 1 3) < List.length [7, 7, 7, 7]) ∧
    (List.length [7, 7, 7, 7] ≤ Section.size (Section.mk 1 3) →
      ∃ ec' : Blob,
        MergeRwEcFirmware (Blob.mk [0, 0, 0, 0, 0, 0] [("EC_RW", Section.mk 1 3)] 0)
            [7, 7, 7, 7] 9 = (Except.ok (), ec') ∧
        ec'.bytes.length =
          (Blob.mk [0, 0, 0, 0, 0, 0] [("EC_RW", Section.mk 1 3)] 0).bytes.length ∧
        ec'.bytes.take (Section.mk 1 3).offset =
          (Blob.mk [0, 0, 0, 0, 0, 0] [("EC_RW", Section.mk 1 3)] 0).bytes.take
            (Section.mk 1 3).offset ∧
        ec'.bytes.drop ((Section.mk 1 3).offset + List.length [7, 7, 7, 7]) =
          (Blob.mk [0, 0, 0, 0, 0, 0] [("EC_RW", Section.mk 1 3)] 0).bytes.drop
            ((Section.mk 1 3).offset + List.length [7, 7, 7, 7]) ∧
        (ec'.bytes.drop (Section.mk 1 3).offset).take (List.length [7, 7, 7, 7]) =
          [7, 7, 7, 7]) :=
  merge_rw_ec_payload_bound (Blob.mk [0, 0, 0, 0, 0, 0] [("EC_RW", Section.mk 1 3)] 0)
    [7, 7, 7, 7] 9 (Section.mk 1 3) (by decide) (by decide)

/-! ### Dictionary lemmas -/

theorem dictLookup_append {α : Type} (m m' : List (String × α)) (k : String) :
    dictLookup (m ++ m') k =
      match dictLookup m k with
      | some v => some v
      | none => dictLookup m' k := by
  induction m with
  | nil => simp [dictLookup]
  | cons p rest ih =>
    obtain ⟨k0, v0⟩ := p
    by_cases h : k = k0
    · simp [dictLookup, h]
    · simp [dictLookup, h, ih]

theorem dictInsert_of_not_mem {α : Type} (m : List (String × α)) (k : String) (v : α)
    (h : dictLookup m k = none) : dictInsert m k v = m ++ [(k, v)] := by
  simp [dictInsert, h]

theorem dictLookup_cons {α : Type} (k0 : String) (v0 : α) (rest : List (String × α))
    (k : String) :
    dictLookup ((k0, v0) :: rest) k = if k = k0 then some v0 else dictLookup rest k := rfl

theorem dictLookup_map_overwrite {α : Type} (m : List (String × α)) (key k : String)
    (v : α) (h : k ≠ key) :
    dictLookup (m.map (fun p => if p.1 = key then (key, v) else p)) k = dictLookup m k := by
  induction m with
  | nil => rfl
  | cons p rest ih =>
    obtain ⟨k0, v0⟩ := p
    rw [List.map_cons]
    by_cases hk : k0 = key
    · subst hk
      have hh : (if ((k0, v0) : String × α).1 = k0 then (k0, v) else (k0, v0))
          = (k0, v) := by simp
      rw [hh, dictLookup_cons, dictLookup_cons, if_neg h, if_neg h, ih]
    · have hh : (if ((k0, v0) : String × α).1 = key then (key, v) else (k0, v0))
          = (k0, v0) := by simp [hk]
      rw [hh, dictLookup_cons, dictLookup_cons, ih]

theorem dictLookup_insert_ne {α : Type} (m : List (String × α)) (key k : String) (v : α)
    (h : k ≠ key) : dictLookup (dictInsert m key v) k = dictLookup m k := by
  unfold dictInsert
  split
  · exact dictLookup_map_overwrite m key k v h
  · rw [dictLookup_append]
    cases hm : dictLookup m k with
    | some w => rfl
    | none => simp [dictLookup, h]

theorem dictLookup_perm {α : Type} {l l' : List (String × α)} (hp : l.Perm l') :
    (l.map Prod.fst).Nodup → ∀ k, dictLookup l k = dictLookup l' k := by
  induction hp with
  | nil => intro _ k; rfl
  | cons x h ih =>
    intro hnd k
    rw [List.map_cons] at hnd
    obtain ⟨-, hnd2⟩ := List.nodup_cons.mp hnd
    obtain ⟨kx, vx⟩ := x
    by_cases hk : k = kx
    · simp [dictLookup, hk]
    · simp [dictLookup, hk, ih hnd2 k]
  | swap x y t =>
    intro hnd k
    obtain ⟨kx, vx⟩ := x
    obtain ⟨ky, vy⟩ := y
    rw [List.map_cons, List.map_cons] at hnd
    have hxy : ky ≠ kx := by
      have hmem := (List.nodup_cons.mp hnd).1
      simp only [List.mem_cons] at hmem
      intro he
      exact hmem (Or.inl he)
    have hxy2 : kx ≠ ky := fun he => hxy he.symm
    by_cases h1 : k = ky
    · subst h1
      simp [dictLookup, hxy]
    · by_cases h2 : k = kx
      · simp [dictLookup, h1, h2, hxy2]
      · simp [dictLookup, h1, h2]
  | trans h1 h2 ih1 ih2 =>
    intro hnd k
    rw [ih1 hnd k, ih2 (((h1.map Prod.fst).nodup_iff).mp hnd) k]

/-! ### C7: the version ledger -/

theorem addAll_aux (l : List (String × ImageFile)) :
    ∀ m : List (String × ImageFile),
      (∀ p ∈ l, dictLookup m p.1 = none) → (l.map Prod.fst).Nodup →
      l.foldl (fun m p => dictInsert m p.1 p.2) m = m ++ l := by
  induction l with
  | nil => intro m _ _; simp
  | cons p t ih =>
    intro m hnone hnd
    rw [List.map_cons] at hnd
    obtain ⟨hhead, hnd2⟩ := List.nodup_cons.mp hnd
    have hmp : dictLookup m p.1 = none := hnone p (List.mem_cons_self p t)
    rw [List.foldl_cons, dictInsert_of_not_mem m p.1 p.2 hmp]
    have hnone2 : ∀ q ∈ t, dictLookup (m ++ [(p.1, p.2)]) q.1 = none := by
      intro q hq
      rw [dictLookup_append, hnone q (List.mem_cons_of_mem p hq)]
      have hne : q.1 ≠ p.1 := by
        intro he
        exact hhead (he ▸ List.mem_map_of_mem Prod.fst hq)
      simp [dictLookup, hne]
    rw [ih (m ++ [(p.1, p.2)]) hnone2 hnd2]
    simp

theorem addAll_eq_self (l : List (String × ImageFile))
    (hnd : (l.map Prod.fst).Nodup) : addAll l = l := by
  unfold addAll
  rw [addAll_aux l [] (fun p _ => rfl) hnd]
  simp

theorem sortedKeys_perm (ns ns' : List String) (hp : ns.Perm ns') :
    ns.insertionSort (fun a b => a ≤ b) = ns'.insertionSort (fun a b => a ≤ b) :=
  List.eq_of_perm_of_sorted
    ((List.perm_insertionSort _ ns).trans (hp.trans (List.perm_insertionSort _ ns').symm))
    (List.sorted_insertionSort _ ns) (List.sorted_insertionSort _ ns')

theorem write_versions_perm (digest shorten : String → String)
    {files files' : List (String × ImageFile)} (hp : files.Perm files')
    (hnd : (files.map Prod.fst).Nodup) :
    WriteVersions digest shorten files = WriteVersions digest shorten files' := by
  unfold WriteVersions
  rw [← sortedKeys_perm _ _ (hp.map Prod.fst)]
  congr 1
  congr 1
  apply List.map_congr_left
  intro n _
  rw [dictLookup_perm hp hnd n]

/-- C7 (amended): when the display names of the `add` calls are pairwise
distinct (as they are for the fixed keys BIOS, BIOS (RW), EC, EC (RW), PD,
PD (RW)), any permutation of the same calls renders character-identical
manifest text; an `add` with a repeated display name overwrites the earlier
record, so for duplicated names only the last record survives and
permutations may then render differently. -/
theorem render_versions_perm_invariant (digest shorten : String → String)
    (adds adds' : List (String × ImageFile)) (hnd : (adds.map Prod.fst).Nodup)
    (hp : adds.Perm adds') :
    renderVersions digest shorten adds = renderVersions digest shorten adds' := by
  unfold renderVersions
  rw [addAll_eq_self adds hnd,
    addAll_eq_self adds' (((hp.map Prod.fst).nodup_iff).mp hnd)]
  exact write_versions_perm digest shorten hp hnd

theorem render_versions_perm_invariant_witness :
    renderVersions (fun _ => "d") (fun x => x)
        [("BIOS", ImageFile.mk none "1"), ("EC", ImageFile.mk none "2")] =
      renderVersions (fun _ => "d") (fun x => x)
        [("EC", ImageFile.mk none "2"), ("BIOS", ImageFile.mk none "1")] :=
  render_versions_perm_invariant (fun _ => "d") (fun x => x)
    [("BIOS", ImageFile.mk none "1"), ("EC", ImageFile.mk none "2")]
    [("EC", ImageFile.mk none "2"), ("BIOS", ImageFile.mk none "1")]
    (by decide) (by decide)

/-- C7 counterexample: two `add` sequences that are permutations of each
other but repeat the display name `A` render different text — the dict
write-through keeps only the last record for a repeated name — so the claim
over every multiset of records fails. -/
theorem render_versions_duplicate_cex :
    List.Perm [("A", ImageFile.mk none "1"), ("A", ImageFile.mk none "2")]
      [("A", ImageFile.mk none "2"), ("A", ImageFile.mk none "1")] ∧
    renderVersions (fun _ => "d") (fun x => x)
        [("A", ImageFile.mk none "1"), ("A", ImageFile.mk none "2")] ≠
      renderVersions (fun _ => "d") (fun x => x)
        [("A", ImageFile.mk none "2"), ("A", ImageFile.mk none "1")] := by
  decide

/-! ### C8: the template substitution map -/

/-- C8 (amended): with a BIOS record present, the substitution map carries
the RO firmware id; the effective RW id equals the RW record's id when a
`BIOS (RW)` record with a nonempty id was produced and falls back to the RO
id when the record is absent or its id is empty; the EC and PD ids are the
`IGNORE` marker when the corresponding record is absent; and the platform
token is the part of the RO id before its first dot. -/
theorem get_replace_dict_fields (files : List (String × ImageFile))
    (sm se sp : Option String) (bios : ImageFile)
    (hb : dictLookup files "BIOS" = some bios) :
    ∃ d : ReplaceDict,
      GetReplaceDict files sm se sp = Except.ok d ∧
      d.ro_fwid = bios.version ∧
      (∀ rw : ImageFile, dictLookup files "BIOS (RW)" = some rw → rw.version ≠ "" →
        d.fwid = rw.version) ∧
      (((dictLookup files "BIOS (RW)").getD emptyImageFile).version = "" →
        d.fwid = bios.version) ∧
      (dictLookup files "EC" = none → d.ecid = IGNORE) ∧
      (dictLookup files "PD" = none → d.pdid = IGNORE) ∧
      d.platform = pySplitHead bios.version '.' := by
  refine ⟨{ ro_fwid := bios.version,
            fwid := if ((dictLookup files "BIOS (RW)").getD emptyImageFile).version = ""
                    then bios.version
                    else ((dictLookup files "BIOS (RW)").getD emptyImageFile).version,
            ecid := orIgnore ((dictLookup files "EC").getD emptyImageFile).version,
            pdid := orIgnore ((dictLookup files "PD").getD emptyImageFile).version,
            platform := pySplitHead bios.version '.',
            stable_fwid := sm, stable_ecid := se, stable_pdid := sp },
    ?_, rfl, ?_, ?_, ?_, ?_, rfl⟩
  · simp [GetReplaceDict, hb]
  · intro rw hrw hne
    simp only [hrw, Option.getD_some]
    simp [hne]
  · intro h0
    simp [h0]
  · intro hec
    simp [hec, emptyImageFile, orIgnore]
  · intro hpd
    simp [hpd, emptyImageFile, orIgnore]

theorem get_replace_dict_fields_witness :
    (∃ d : ReplaceDict,
      GetReplaceDict [("BIOS", ImageFile.mk none "Google_Reef.9042.50.0")] none none none =
        Except.ok d ∧
      d.ro_fwid = (ImageFile.mk none "Google_Reef.9042.50.0").version ∧
      (∀ rw : ImageFile,
        dictLookup [("BIOS", ImageFile.mk none "Google_Reef.9042.50.0")] "BIOS (RW)" =
          some rw → rw.version ≠ "" → d.fwid = rw.version) ∧
      (((dictLookup [("BIOS", ImageFile.mk none "Google_Reef.9042.50.0")]
          "BIOS (RW)").getD emptyImageFile).version = "" →
        d.fwid = (ImageFile.mk none "Google_Reef.9042.50.0").version) ∧
      (dictLookup [("BIOS", ImageFile.mk none "Google_Reef.9042.50.0")] "EC" = none →
        d.ecid = IGNORE) ∧
      (dictLookup [("BIOS", ImageFile.mk none "Google_Reef.9042.50.0")] "PD" = none →
        d.pdid = IGNORE) ∧
      d.platform = pySplitHead (ImageFile.mk none "Google_Reef.9042.50.0").version '.') ∧
    pySplitHead "Google_Reef.9042.50.0" '.' = "Google_Reef" :=
  ⟨get_replace_dict_fields [("BIOS", ImageFile.mk none "Google_Reef.9042.50.0")]
      none none none (ImageFile.mk none "Google_Reef.9042.50.0") (by decide),
   by decide⟩

/-- C8 counterexample: a build whose `BIOS (RW)` record was produced with an
empty firmware id: the effective RW id falls back to the RO id instead of
equalling the produced RW record's id, refuting the claim that the RW id is
used whenever an RW component was produced. -/
theorem get_replace_dict_empty_rw_cex :
    dictLookup [("BIOS", ImageFile.mk none "Google_Reef.9042.50.0"),
                ("BIOS (RW)", ImageFile.mk none "")] "BIOS (RW)" =
      some (ImageFile.mk none "") ∧
    GetReplaceDict [("BIOS", ImageFile.mk none "Google_Reef.9042.50.0"),
                    ("BIOS (RW)", ImageFile.mk none "")] none none none =
      Except.ok (ReplaceDict.mk "Google_Reef.9042.50.0" "Google_Reef.9042.50.0"
        "IGNORE" "IGNORE" "Google_Reef" none none none) ∧
    "Google_Reef.9042.50.0" ≠ ImageFile.version (ImageFile.mk none "") := by
  decide

/-! ### C10: reaching the substitution map without a BIOS image -/

theorem rwStep_lookup_bios (env : FwEnv) (bios_rw : Option String) (m1 : Bool)
    (im : String) (files0 files1 : List (String × ImageFile)) (m2 : Bool)
    (h : rwStep env bios_rw m1 im files0 = Except.ok (files1, m2)) :
    dictLookup files1 "BIOS" = dictLookup files0 "BIOS" := by
  unfold rwStep at h
  split at h
  · split at h
    · simp at h
    · split at h
      · simp at h
      · simp only [Except.ok.injEq, Prod.mk.injEq] at h
        obtain ⟨h1, -⟩ := h
        subst h1
        exact dictLookup_insert_ne files0 "BIOS (RW)" "BIOS" _ (by decide)
  · simp only [Except.ok.injEq, Prod.mk.injEq] at h
    obtain ⟨h1, -⟩ := h
    subst h1
    rfl

theorem ecStep_lookup_bios (env : FwEnv) (ec_image : Option String) (dv : String)
    (m2 : Bool) (ie im : String) (files1 files2 : List (String × ImageFile))
    (h : ecStep env ec_image dv m2 ie im files1 = Except.ok files2) :
    dictLookup files2 "BIOS" = dictLookup files1 "BIOS" := by
  unfold ecStep at h
  split at h
  · split at h
    · split at h
      · simp at h
      · simp only [Except.ok.injEq] at h
        subst h
        rw [dictLookup_insert_ne _ "EC (RW)" "BIOS" _ (by decide),
          dictLookup_insert_ne _ "EC" "BIOS" _ (by decide)]
    · simp only [Except.ok.injEq] at h
      subst h
      exact dictLookup_insert_ne _ "EC" "BIOS" _ (by decide)
  · simp only [Except.ok.injEq] at h
    subst h
    rfl

theorem pdStep_lookup_bios (env : FwEnv) (pd_image : Option String) (m2 : Bool)
    (ip im : String) (files2 files3 : List (String × ImageFile))
    (h : pdStep env pd_image m2 ip im files2 = Except.ok files3) :
    dictLookup files3 "BIOS" = dictLookup files2 "BIOS" := by
  unfold pdStep at h
  split at h
  · split at h
    · split at h
      · simp at h
      · simp only [Except.ok.injEq] at h
        subst h
        rw [dictLookup_insert_ne _ "PD (RW)" "BIOS" _ (by decide),
          dictLookup_insert_ne _ "PD" "BIOS" _ (by decide)]
    · simp only [Except.ok.injEq] at h
      subst h
      exact dictLookup_insert_ne _ "PD" "BIOS" _ (by decide)
  · simp only [Except.ok.injEq] at h
    subst h
    rfl

theorem copy_files_no_bios (env : FwEnv) (bios_rw_image ec_image pd_image : Option String)
    (dv : String) (cb mb : Bool) (im imrw ie ip : String)
    (files : List (String × ImageFile))
    (h : CopyFirmwareFiles env none bios_rw_image ec_image pd_image dv cb mb
        im imrw ie ip = Except.ok files) :
    dictLookup files "BIOS" = none := by
  unfold CopyFirmwareFiles at h
  simp only [biosStep] at h
  cases hcs : createStep env none bios_rw_image cb imrw false with
  | error e => rw [hcs] at h; simp at h
  | ok pr =>
    obtain ⟨brw, m1⟩ := pr
    rw [hcs] at h
    dsimp only at h
    cases hrw : rwStep env brw m1 im [] with
    | error e => rw [hrw] at h; simp at h
    | ok pr2 =>
      obtain ⟨files1, m2⟩ := pr2
      rw [hrw] at h
      dsimp only at h
      cases hec : ecStep env ec_image dv m2 ie im files1 with
      | error e => rw [hec] at h; simp at h
      | ok files2 =>
        rw [hec] at h
        dsimp only at h
        rw [pdStep_lookup_bios env pd_image m2 ip im files2 files h,
          ecStep_lookup_bios env ec_image dv m2 ie im files1 files2 hec,
          rwStep_lookup_bios env brw m1 im [] files1 m2 hrw]
        rfl

/-- A successful `_GetReplaceDict` presupposes a `BIOS` record: with none,
the dict subscript raises `KeyError('BIOS')`. -/
theorem getReplaceDict_missing_bios (files : List (String × ImageFile))
    (sm se sp : Option String) (h : dictLookup files "BIOS" = none) :
    GetReplaceDict files sm se sp = Except.error (PyError.keyError "BIOS") := by
  unfold GetReplaceDict
  rw [h]

/-- Sample collaborator environment for concrete runs. -/
def sampleEnv : FwEnv :=
  { extractFrid := fun _ _ => "v1",
    checkRw := fun _ => Except.ok (),
    createRw := fun _ _ => Except.ok (),
    mergeRw := fun _ _ => Except.ok (),
    mergeRwEc := fun _ _ _ => Except.ok () }

/-- C10: a model build supplying an EC or PD image but no BIOS image passes
the at-least-one-image validation (so `_ProcessModel` proceeds into the copy
step), the copy step succeeds with an `image_files` dict lacking the `BIOS`
key, and `_GetReplaceDict` on it fails with the unstructured built-in
`KeyError('BIOS')` rather than a structured `PackError`; consequently any
run on which the substitution map is actually built had a BIOS image. -/
theorem missing_bios_keyerror (env : FwEnv) (ec_image pd_image : Option String)
    (dv : String) (mb : Bool) (im imrw ie ip : String) (sm se sp : Option String)
    (h : ec_image ≠ none ∨ pd_image ≠ none) :
    ProcessModel env none none ec_image pd_image dv false mb im imrw ie ip =
      CopyFirmwareFiles env none none ec_image pd_image dv false mb im imrw ie ip ∧
    (∃ files : List (String × ImageFile),
      CopyFirmwareFiles env none none ec_image pd_image dv false mb im imrw ie ip =
        Except.ok files ∧
      dictLookup files "BIOS" = none ∧
      GetReplaceDict files sm se sp = Except.error (PyError.keyError "BIOS") ∧
      isPackError (PyError.keyError "BIOS") = false) ∧
    (∀ (bios_image bios_rw_image : Option String) (cb mb2 : Bool)
        (files : List (String × ImageFile)) (d : ReplaceDict),
      CopyFirmwareFiles env bios_image bios_rw_image ec_image pd_image dv cb mb2
        im imrw ie ip = Except.ok files →
      GetReplaceDict files sm se sp = Except.ok d →
      bios_image ≠ none) := by
  refine ⟨?_, ?_, ?_⟩
  · unfold ProcessModel
    rcases h with h | h
    · simp [h]
    · simp [h]
  · cases hec : ec_image with
    | some e =>
        cases hpd : pd_image with
        | some p =>
            refine ⟨_, rfl, ?_, ?_, rfl⟩
            · simp [dictInsert, dictLookup]
            · exact getReplaceDict_missing_bios _ sm se sp (by simp [dictInsert, dictLookup])
        | none =>
            refine ⟨_, rfl, ?_, ?_, rfl⟩
            · simp [dictInsert, dictLookup]
            · exact getReplaceDict_missing_bios _ sm se sp (by simp [dictInsert, dictLookup])
    | none =>
        cases hpd : pd_image with
        | some p =>
            refine ⟨_, rfl, ?_, ?_, rfl⟩
            · simp [dictInsert, dictLookup]
            · exact getReplaceDict_missing_bios _ sm se sp (by simp [dictInsert, dictLookup])
        | none =>
            subst hec
            subst hpd
            rcases h with h | h
            · exact absurd rfl h
            · exact absurd rfl h
  · intro bios_image bios_rw_image cb mb2 files d hc hg
    cases bios_image with
    | some b => simp
    | none =>
        have hnone := copy_files_no_bios env bios_rw_image ec_image pd_image dv cb mb2
          im imrw ie ip files hc
        rw [GetReplaceDict, hnone] at hg
        exact absurd hg (by simp)

theorem missing_bios_keyerror_witness :
    ∃ files : List (String × ImageFile),
      CopyFirmwareFiles sampleEnv none none (some "ec.bin") none "" false false
        "bios.bin" "bios_rw.bin" "ec.bin" "pd.bin" = Except.ok files ∧
      dictLookup files "BIOS" = none ∧
      GetReplaceDict files none none none = Except.error (PyError.keyError "BIOS") ∧
      isPackError (PyError.keyError "BIOS") = false :=
  (missing_bios_keyerror sampleEnv (some "ec.bin") none "" false
    "bios.bin" "bios_rw.bin" "ec.bin" "pd.bin" none none none
    (Or.inl (by decide))).2.1

end PackFirmware
